import Mathlib

/-!
Shallow embedding of the client-side session and scan-orchestration engine
of the FoodGuard front end (`src/App.js`).  Each network interaction is
modelled by passing the outcome of the corresponding `fetch` call as an
explicit argument; the persisted `localStorage` slot `access_token` is the
`token` field of the session state; JSON numbers the code only carries
around (confidences, nutrient amounts) are modelled as `Int` since the
embedded operations never compute with them.
-/

namespace FoodGuard

/-- Abstraction of a non-2xx response body as the code observes it through
`JSON.parse` / `response.json()` and the `.error` field: a body that is not
parseable JSON (carrying the parse error's message), parseable JSON with no
usable (truthy) `error` field, or JSON carrying the error string `e`. -/
inductive ErrorBody where
  | notJson (parseMsg : String)
  | jsonNoError
  | jsonError (e : String)
deriving DecidableEq, Repr

/-- Outcome of one `fetch` call: a 2xx response with parsed body `α`, a
non-2xx response with its status and (abstracted) body, or a thrown network
error with the exception's `name` and `message`. -/
inductive HttpResp (α : Type) where
  | ok (data : α)
  | httpError (status : Nat) (body : ErrorBody)
  | netError (name : String) (msg : String)
deriving DecidableEq, Repr

/-- A response that is not 2xx: either a non-2xx status or a network error. -/
def HttpResp.isFail {α : Type} : HttpResp α → Bool
  | .ok _ => false
  | .httpError _ _ => true
  | .netError _ _ => true

/-- JS `String.prototype.includes` for the fixed non-empty patterns the code
tests ("Failed to fetch", "CORS"). -/
def jsIncludes (s pat : String) : Bool := (s.splitOn pat).length != 1

/-- JS `String.prototype.startsWith`. -/
def jsStartsWith (s pre : String) : Bool := pre.data.isPrefixOf s.data

/-- JS `String.prototype.toLowerCase`, character-wise (the ASCII range,
which covers every comparison the code performs). -/
def jsToLower (s : String) : String := ⟨s.data.map Char.toLower⟩

/-- JS `String.prototype.trim`: strips whitespace from both ends. -/
def jsTrim (s : String) : String :=
  ⟨((s.data.dropWhile Char.isWhitespace).reverse.dropWhile Char.isWhitespace).reverse⟩

/-- The `user` object inside the profile payload (`data.user`). -/
structure Identity where
  email : String
  first_name : String
  last_name : String
deriving DecidableEq, Repr

/-- One allergy entry: name, severity, notes (App.js 502-506). -/
structure Allergy where
  name : String
  severity : String
  notes : String
deriving DecidableEq, Repr

/-- Profile payload of GET /profile: nested identity, allergy list and the
scan counter (which the optimistic bump treats as possibly absent). -/
structure ProfileData where
  user : Identity
  allergies : List Allergy
  total_scans : Option Nat
deriving DecidableEq, Repr

/-- Session state of `useAuth` (App.js 38-201): the persisted token, the
`user` state and the `loading` flag. -/
structure SessionState where
  token : Option String
  user : Option ProfileData
  loading : Bool
deriving DecidableEq, Repr

/-- `fetchProfile` (App.js 169-193): on 2xx replaces `user` wholesale; on a
non-2xx response or a network error removes the persisted token (and does
not touch `user`); in every path finally sets the loading flag to false. -/
def fetchProfile (s : SessionState) (resp : HttpResp ProfileData) : SessionState :=
  match resp with
  | .ok data => { s with user := some data, loading := false }
  | .httpError _ _ => { s with token := none, loading := false }
  | .netError _ _ => { s with token := none, loading := false }

/-- Error message of a non-2xx login response (App.js 81-92): the body's
truthy `error` field if it parses, else the generic fallback, else the
status string when the body is not JSON. -/
def loginHttpErrorMsg (status : Nat) (body : ErrorBody) : String :=
  match body with
  | .jsonError e => e
  | .jsonNoError => "Login failed"
  | .notJson _ => "Server error: " ++ toString status

/-- Error message classification of a thrown login error (App.js 94-106). -/
def loginNetErrorMsg (name msg : String) : String :=
  if name == "TypeError" && jsIncludes msg "Failed to fetch" then
    "Cannot connect to server. Please check your internet connection."
  else if jsIncludes msg "CORS" then
    "CORS error - server configuration issue."
  else
    "Connection failed"

/-- 2xx login body: the access token (other fields unused). -/
structure LoginOk where
  access_token : String
deriving DecidableEq, Repr

/-- The discriminated result `login` returns (App.js 79, 92, 106). -/
inductive LoginResult where
  | success
  | failure (error : String)
deriving DecidableEq, Repr

/-- `login` (App.js 51-108).  The outcome of the POST and of the follow-up
profile GET enter as arguments.  On 2xx the token is stored and
`fetchProfile` runs before the call returns; on non-2xx or a network error
the session state is untouched and a discriminated failure is returned (the
JS try/catch never lets the call throw, which the totality of this function
mirrors). -/
def login (s : SessionState) (loginResp : HttpResp LoginOk)
    (profileResp : HttpResp ProfileData) : SessionState × LoginResult :=
  match loginResp with
  | .ok d =>
      (fetchProfile { s with token := some d.access_token } profileResp, .success)
  | .httpError status body => (s, .failure (loginHttpErrorMsg status body))
  | .netError name msg => (s, .failure (loginNetErrorMsg name msg))

/-- `addAllergy` (App.js 500-510).  Truthiness of `newAllergy.name.trim()`
is nonemptiness of the trimmed name; the duplicate check lower-cases but
does NOT trim the candidate; a successful add appends the trimmed,
lower-cased name with trimmed notes and resets the input fields.  Returns
the updated list and the updated input object. -/
def addAllergy (allergies : List Allergy) (newAllergy : Allergy) :
    List Allergy × Allergy :=
  if jsTrim newAllergy.name != "" &&
      !(allergies.any fun a => jsToLower a.name == jsToLower newAllergy.name) then
    (allergies ++
       [⟨jsToLower (jsTrim newAllergy.name), newAllergy.severity,
         jsTrim newAllergy.notes⟩],
     ⟨"", "moderate", ""⟩)
  else
    (allergies, newAllergy)

/-- A file blob as the validation reads it: MIME type and byte size. -/
structure FileBlob where
  type : String
  size : Nat
deriving DecidableEq, Repr

/-- One allergen warning of a scan result. -/
structure Warning where
  allergen : String
  ingredient : String
  severity : String
  confidence : Int
deriving DecidableEq, Repr

/-- One detected ingredient of a scan result. -/
structure Ingredient where
  name : String
  confidence : Int
deriving DecidableEq, Repr

/-- The `total_estimated` block of a nutrition payload. -/
structure NutritionTotals where
  calories : Int
  protein : Int
  carbs : Int
  fat : Int
  fiber : Int
deriving DecidableEq, Repr

/-- The `result.nutrition` payload; stored wholesale into the nutrition
slot, its parts are only read by the rendering. -/
structure NutritionData where
  total_estimated : Option NutritionTotals
  individual_ingredients : List (String × NutritionTotals)
  confidence : Option Int
deriving DecidableEq, Repr

/-- 2xx body of POST /analyze-food. -/
structure ScanResultData where
  is_safe : Bool
  allergen_warnings : List Warning
  ingredients : List Ingredient
  confidence_score : Option Int
  nutrition_available : Option Bool
  nutrition : Option NutritionData
deriving DecidableEq, Repr

/-- One entry of the scan-history payload. -/
structure HistoryEntry where
  id : Nat
  is_safe : Bool
  has_nutrition : Bool
deriving DecidableEq, Repr

/-- 2xx body of GET /scan-history (the `scans` field may be absent:
`data.scans || []`). -/
structure HistoryPayload where
  scans : Option (List HistoryEntry)
deriving DecidableEq, Repr

/-- State of `FoodScannerApp` (App.js 662-671) together with the session
user it mutates through `setUser`; `imagePreview` holds the blob the
data-URL preview is derived from (the reader's `onload` sets it). -/
structure ScannerState where
  selectedImage : Option FileBlob
  imagePreview : Option FileBlob
  isAnalyzing : Bool
  scanResult : Option ScanResultData
  nutritionData : Option NutritionData
  scanHistory : List HistoryEntry
  user : ProfileData
deriving DecidableEq, Repr

/-- Observable side effects of the scanner operations: the preview read
being started, the analyze POST being issued, `loadScanHistory` being
invoked, and `alert` messages. -/
inductive Event where
  | previewRead (file : FileBlob)
  | analyzeRequest
  | historyRefresh
  | alert (msg : String)
deriving DecidableEq, Repr

/-- `Event.alert`? -/
def Event.isAlert : Event → Bool
  | .alert _ => true
  | _ => false

/-- `loadScanHistory` (App.js 677-694): on 2xx replaces the history
wholesale with `data.scans || []`; a non-2xx response or a network error
only logs and leaves the cache untouched.  The `historyRefresh` event marks
the invocation. -/
def loadScanHistory (s : ScannerState) (resp : HttpResp HistoryPayload) :
    ScannerState × List Event :=
  match resp with
  | .ok data => ({ s with scanHistory := data.scans.getD [] }, [.historyRefresh])
  | .httpError _ _ => (s, [.historyRefresh])
  | .netError _ _ => (s, [.historyRefresh])

/-- `handleImageSelect` (App.js 696-718): `event.target.files[0]` enters as
the optional file.  The type is checked before the size; on acceptance the
blob is stored, the preview derivation starts, and the prior scan result
and nutrition data are cleared. -/
def handleImageSelect (s : ScannerState) (file : Option FileBlob) :
    ScannerState × List Event :=
  match file with
  | none => (s, [])
  | some f =>
      if !(jsStartsWith f.type "image/") then
        (s, [.alert "Please select a valid image file"])
      else if f.size > 10 * 1024 * 1024 then
        (s, [.alert "Image size must be less than 10MB"])
      else
        ({ s with
            selectedImage := some f,
            imagePreview := some f,
            scanResult := none,
            nutritionData := none },
         [.previewRead f])

/-- JS `prev.total_scans || 0`: an absent (undefined) field is falsy and
yields 0; the number 0 is also falsy and yields the fallback 0, the same
value, so on naturals this is exactly `getD 0`. -/
def jsOrZero : Option Nat → Nat
  | none => 0
  | some n => n

/-- Alert of the failure paths of `analyzeImage` (App.js 747-754): a
parseable non-2xx body surfaces its truthy `error` field or the generic
fallback; a non-JSON body makes `response.json()` throw into the catch,
which shows the parse error's message; a network error likewise shows the
exception's message. -/
def analyzeFailAlert : HttpResp ScanResultData → Option String
  | .ok _ => none
  | .httpError _ (.jsonError e) => some ("Analysis failed: " ++ e)
  | .httpError _ .jsonNoError => some ("Analysis failed: Unknown error")
  | .httpError _ (.notJson m) => some ("Connection error: " ++ m)
  | .netError _ msg => some ("Connection error: " ++ msg)

/-- `analyzeImage` (App.js 721-757): returns at once without a selected
image; otherwise raises the in-flight flag and issues the POST.  On 2xx it
replaces the scan result wholesale, stores `result.nutrition`, bumps the
optimistic `total_scans` counter and awaits one `loadScanHistory`; on
failure it only alerts.  The in-flight flag is dropped again in every
path. -/
def analyzeImage (s : ScannerState) (resp : HttpResp ScanResultData)
    (histResp : HttpResp HistoryPayload) : ScannerState × List Event :=
  match s.selectedImage with
  | none => (s, [])
  | some _ =>
      let s1 := { s with isAnalyzing := true }
      match resp with
      | .ok result =>
          let s2 := { s1 with
            scanResult := some result,
            nutritionData := result.nutrition,
            user := { s1.user with
              total_scans := some (jsOrZero s1.user.total_scans + 1) } }
          let step := loadScanHistory s2 histResp
          ({ step.1 with isAnalyzing := false }, .analyzeRequest :: step.2)
      | e =>
          ({ s1 with isAnalyzing := false },
           .analyzeRequest :: ((analyzeFailAlert e).map Event.alert).toList)

/-- The analyze button (App.js 820-830) is the sole caller of
`analyzeImage`; it is disabled while `!selectedImage || isAnalyzing`
(line 823). -/
def analyzeButtonEnabled (s : ScannerState) : Bool :=
  s.selectedImage.isSome && !s.isAnalyzing

/-- A click on the analyze button: a disabled button fires nothing. -/
def analyzeClick (s : ScannerState) (resp : HttpResp ScanResultData)
    (histResp : HttpResp HistoryPayload) : ScannerState × List Event :=
  if analyzeButtonEnabled s then analyzeImage s resp histResp else (s, [])

/-- Concrete states used by the witnesses below. -/
def profileA : ProfileData :=
  { user := ⟨"ana@example.com", "Ana", "B"⟩, allergies := [], total_scans := some 0 }

def freshSession : SessionState := { token := none, user := none, loading := false }

def fileA : FileBlob := { type := "image/png", size := 1024 }

def resultA : ScanResultData :=
  { is_safe := true, allergen_warnings := [], ingredients := [],
    confidence_score := none, nutrition_available := none, nutrition := none }

def scannerA : ScannerState :=
  { selectedImage := some fileA, imagePreview := some fileA, isAnalyzing := false,
    scanResult := none, nutritionData := none, scanHistory := [], user := profileA }

def scannerB : ScannerState := { scannerA with scanResult := some resultA }

/-- C7: every `fetchProfile` call sets the loading flag to false, whatever
the outcome (2xx, non-2xx, or network error), so the Initializing state
always terminates. -/
theorem C7_fetchProfile_terminates_loading (s : SessionState)
    (resp : HttpResp ProfileData) : (fetchProfile s resp).loading = false := by
  cases resp <;> rfl

/-- C6: with `user` absent before the call (which holds at every call site:
initial hydration, login and register all run with no user), a rejected
`fetchProfile` clears the persisted token and leaves the user absent, so an
absent token still implies an absent user; a successful one replaces the
user wholesale. -/
theorem C6_fetchProfile_session_invariant (s : SessionState)
    (resp : HttpResp ProfileData) (h : s.user = none) :
    (resp.isFail = true →
      (fetchProfile s resp).token = none ∧ (fetchProfile s resp).user = none) ∧
    (∀ d, resp = .ok d → (fetchProfile s resp).user = some d) := by
  cases resp <;> simp [fetchProfile, HttpResp.isFail, h]

theorem C6_fetchProfile_session_invariant_witness :
    (fetchProfile { token := some "abc", user := none, loading := true }
        (.httpError 401 (.notJson "bad"))).token = none ∧
    (fetchProfile { token := some "abc", user := none, loading := true }
        (.httpError 401 (.notJson "bad"))).user = none :=
  (C6_fetchProfile_session_invariant
      { token := some "abc", user := none, loading := true }
      (.httpError 401 (.notJson "bad")) rfl).1 rfl

/-- C1 counterexample: a 2xx login whose follow-up profile fetch is
rejected ends with no persisted token and no user, refuting the claim that
a successful (2xx) authentication response always yields a persisted token
and a present user profile. -/
theorem C1_counterexample :
    ¬ ((login freshSession (.ok ⟨"abc"⟩) (.httpError 401 (.notJson "bad"))).1.token ≠ none ∧
       (login freshSession (.ok ⟨"abc"⟩) (.httpError 401 (.notJson "bad"))).1.user ≠ none) := by
  decide

/-- C1 amended: in a fresh (unauthenticated) session, a 2xx login whose
profile fetch also succeeds persists the returned token and makes the user
present; a 2xx login whose profile fetch is rejected ends with the token
cleared and the user still absent; a non-2xx response or a network error
leaves the session untouched (user absent, no token persisted) and `login`
returns the discriminated failure result rather than throwing. -/
theorem C1_login_amended (s : SessionState) (lr : HttpResp LoginOk)
    (pr : HttpResp ProfileData) (hu : s.user = none) (ht : s.token = none) :
    (∀ d p, lr = .ok d → pr = .ok p →
      (login s lr pr).1.token = some d.access_token ∧
      (login s lr pr).1.user = some p ∧
      (login s lr pr).2 = .success) ∧
    (∀ d, lr = .ok d → pr.isFail = true →
      (login s lr pr).1.token = none ∧ (login s lr pr).1.user = none) ∧
    (∀ st b, lr = .httpError st b →
      (login s lr pr).1 = s ∧ (login s lr pr).1.token = none ∧
      (login s lr pr).2 = .failure (loginHttpErrorMsg st b)) ∧
    (∀ n m, lr = .netError n m →
      (login s lr pr).1 = s ∧ (login s lr pr).1.token = none ∧
      (login s lr pr).2 = .failure (loginNetErrorMsg n m)) := by
  cases lr <;> cases pr <;>
    simp [login, fetchProfile, HttpResp.isFail, hu, ht]

theorem C1_login_amended_witness :
    (login freshSession (.ok ⟨"abc"⟩) (.ok profileA)).1.token = some "abc" ∧
    (login freshSession (.ok ⟨"abc"⟩) (.ok profileA)).1.user = some profileA ∧
    (login freshSession (.ok ⟨"abc"⟩) (.ok profileA)).2 = .success :=
  (C1_login_amended freshSession (.ok ⟨"abc"⟩) (.ok profileA) rfl rfl).1
    ⟨"abc"⟩ profileA rfl rfl

/-- C2: a successful analyze replaces the scan result wholesale, stores
`result.nutrition` into the nutrition slot, bumps the session's
`total_scans` by exactly one (from the client-held value, independent of
server truth) and triggers exactly one history refresh. -/
theorem C2_analyze_success (s : ScannerState) (f : FileBlob)
    (result : ScanResultData) (histResp : HttpResp HistoryPayload)
    (hf : s.selectedImage = some f) :
    (analyzeImage s (.ok result) histResp).1.scanResult = some result ∧
    (analyzeImage s (.ok result) histResp).1.nutritionData = result.nutrition ∧
    (analyzeImage s (.ok result) histResp).1.user.total_scans =
      some (jsOrZero s.user.total_scans + 1) ∧
    (analyzeImage s (.ok result) histResp).2.count .historyRefresh = 1 := by
  cases histResp <;>
    simp [analyzeImage, loadScanHistory, hf, List.count_cons]

theorem C2_analyze_success_witness :
    (analyzeImage scannerA (.ok resultA) (.ok ⟨some []⟩)).1.scanResult = some resultA ∧
    (analyzeImage scannerA (.ok resultA) (.ok ⟨some []⟩)).1.nutritionData = resultA.nutrition ∧
    (analyzeImage scannerA (.ok resultA) (.ok ⟨some []⟩)).1.user.total_scans =
      some (jsOrZero scannerA.user.total_scans + 1) ∧
    (analyzeImage scannerA (.ok resultA) (.ok ⟨some []⟩)).2.count .historyRefresh = 1 :=
  C2_analyze_success scannerA fileA resultA (.ok ⟨some []⟩) rfl

/-- C3: a failed analyze (non-2xx or network error) leaves the session
user (hence `total_scans`), the previously displayed scan result, the
nutrition data, the history and the selection all untouched. -/
theorem C3_analyze_failure_frame (s : ScannerState)
    (resp : HttpResp ScanResultData) (histResp : HttpResp HistoryPayload)
    (hfail : resp.isFail = true) :
    (analyzeImage s resp histResp).1.user = s.user ∧
    (analyzeImage s resp histResp).1.scanResult = s.scanResult ∧
    (analyzeImage s resp histResp).1.nutritionData = s.nutritionData ∧
    (analyzeImage s resp histResp).1.scanHistory = s.scanHistory ∧
    (analyzeImage s resp histResp).1.selectedImage = s.selectedImage := by
  rcases hsel : s.selectedImage with _ | f <;>
    cases resp <;>
      simp_all [analyzeImage, HttpResp.isFail]

theorem C3_analyze_failure_frame_witness :
    (analyzeImage scannerB (.httpError 500 (.jsonError "boom")) (.ok ⟨some []⟩)).1.user
        = scannerB.user ∧
    (analyzeImage scannerB (.httpError 500 (.jsonError "boom")) (.ok ⟨some []⟩)).1.scanResult
        = scannerB.scanResult ∧
    (analyzeImage scannerB (.httpError 500 (.jsonError "boom")) (.ok ⟨some []⟩)).1.nutritionData
        = scannerB.nutritionData ∧
    (analyzeImage scannerB (.httpError 500 (.jsonError "boom")) (.ok ⟨some []⟩)).1.scanHistory
        = scannerB.scanHistory ∧
    (analyzeImage scannerB (.httpError 500 (.jsonError "boom")) (.ok ⟨some []⟩)).1.selectedImage
        = scannerB.selectedImage :=
  C3_analyze_failure_frame scannerB (.httpError 500 (.jsonError "boom")) (.ok ⟨some []⟩) rfl

/-- C4: triggering analyze with no image selected, or while an analysis is
already in flight, changes nothing and issues no request: `analyzeImage`
itself returns at once when no image is selected, and the analyze button —
its only caller — is disabled while `!selectedImage || isAnalyzing`, so a
click then fires nothing. -/
theorem C4_analyze_reentrancy_guard (s : ScannerState)
    (resp : HttpResp ScanResultData) (histResp : HttpResp HistoryPayload)
    (h : s.selectedImage = none ∨ s.isAnalyzing = true) :
    analyzeClick s resp histResp = (s, []) ∧
    (s.selectedImage = none → analyzeImage s resp histResp = (s, [])) := by
  constructor
  · rcases h with h | h <;>
      simp [analyzeClick, analyzeButtonEnabled, h]
  · intro hn
    simp [analyzeImage, hn]

theorem C4_analyze_reentrancy_guard_witness :
    analyzeClick { scannerA with isAnalyzing := true }
        (.ok resultA) (.ok ⟨some []⟩) =
      ({ scannerA with isAnalyzing := true }, []) :=
  (C4_analyze_reentrancy_guard { scannerA with isAnalyzing := true }
      (.ok resultA) (.ok ⟨some []⟩) (Or.inr rfl)).1

/-- C8: a file whose size exceeds 10485760 bytes or whose type does not
start with "image/" is rejected by `handleImageSelect` with a validation
alert: the state (selection, preview, result, nutrition) is unchanged and
the only emitted events are alerts, so no request reaches the network. -/
theorem C8_selectImage_rejects (s : ScannerState) (f : FileBlob)
    (h : f.size > 10485760 ∨ jsStartsWith f.type "image/" = false) :
    (handleImageSelect s (some f)).1 = s ∧
    (handleImageSelect s (some f)).2.all Event.isAlert = true := by
  by_cases htype : jsStartsWith f.type "image/"
  · have hsize : f.size > 10 * 1024 * 1024 := by
      rcases h with h | h
      · omega
      · simp [htype] at h
    simp [handleImageSelect, htype, hsize, Event.isAlert]
  · simp [handleImageSelect, htype, Event.isAlert]

theorem C8_selectImage_rejects_witness :
    (handleImageSelect scannerB (some ⟨"text/plain", 5⟩)).1 = scannerB ∧
    (handleImageSelect scannerB (some ⟨"text/plain", 5⟩)).2.all Event.isAlert = true :=
  C8_selectImage_rejects scannerB ⟨"text/plain", 5⟩ (Or.inr (by decide))

/-- C9: accepting a valid image (image/* type, within the size bound)
stores it as the selection and clears the previous scan result and
nutrition state at once, whether or not an analysis is ever triggered. -/
theorem C9_selectImage_clears_result (s : ScannerState) (f : FileBlob)
    (htype : jsStartsWith f.type "image/" = true) (hsize : f.size ≤ 10485760) :
    (handleImageSelect s (some f)).1.scanResult = none ∧
    (handleImageSelect s (some f)).1.nutritionData = none ∧
    (handleImageSelect s (some f)).1.selectedImage = some f := by
  have hgt : ¬ f.size > 10 * 1024 * 1024 := by omega
  simp [handleImageSelect, htype, hgt]

theorem C9_selectImage_clears_result_witness :
    (handleImageSelect scannerB (some fileA)).1.scanResult = none ∧
    (handleImageSelect scannerB (some fileA)).1.nutritionData = none ∧
    (handleImageSelect scannerB (some fileA)).1.selectedImage = some fileA :=
  C9_selectImage_clears_result scannerB fileA (by decide) (by decide)

/-- C10: the optimistic bump of a successful analyze reads the counter
through `prev.total_scans || 0`, so an absent field yields 1 and a present
n yields n + 1, never an error. -/
theorem C10_optimistic_counter_default (s : ScannerState) (f : FileBlob)
    (result : ScanResultData) (histResp : HttpResp HistoryPayload)
    (hf : s.selectedImage = some f) :
    (analyzeImage s (.ok result) histResp).1.user.total_scans =
      some (match s.user.total_scans with
            | none => 1
            | some n => n + 1) := by
  cases histResp <;> cases hts : s.user.total_scans <;>
    simp [analyzeImage, loadScanHistory, jsOrZero, hf, hts]

theorem C10_optimistic_counter_default_witness :
    (analyzeImage { scannerA with user := { profileA with total_scans := none } }
        (.ok resultA) (.ok ⟨none⟩)).1.user.total_scans = some 1 :=
  C10_optimistic_counter_default
    { scannerA with user := { profileA with total_scans := none } }
    fileA resultA (.ok ⟨none⟩) rfl

/-- C5 counterexample: "milk" and " milk" have equal trimmed case-folded
forms, yet adding " milk" after "milk" appends a second entry (length 2,
both named "milk"), because the duplicate check lower-cases but does not
trim the candidate before comparing. -/
theorem C5_counterexample :
    jsToLower (jsTrim " milk") = jsToLower (jsTrim "milk") ∧
    ((addAllergy (addAllergy [] ⟨"milk", "mild", ""⟩).1
        ⟨" milk", "severe", "x"⟩).1).length = 2 := by
  decide

/-- C5 amended: the duplicate check compares the lower-cased but untrimmed
candidate against the lower-cased stored names, so whenever folding `n2`
without trimming matches the fold of `n1`'s stored (trimmed, lower-cased)
name — in particular whenever both names are already trimmed and
fold-equal — adding `n2` after a successful add of `n1` leaves the list
unchanged (first write wins); a successful add appends the entry with its
name normalized to trimmed lower-case (and its notes trimmed). -/
theorem C5_addAllergy_amended (l : List Allergy) (n1 n2 : Allergy)
    (h1 : jsTrim n1.name ≠ "")
    (h2 : l.any (fun a => jsToLower a.name == jsToLower n1.name) = false)
    (h3 : jsToLower n2.name = jsToLower (jsToLower (jsTrim n1.name))) :
    (addAllergy l n1).1 =
      l ++ [⟨jsToLower (jsTrim n1.name), n1.severity, jsTrim n1.notes⟩] ∧
    (addAllergy (addAllergy l n1).1 n2).1 = (addAllergy l n1).1 := by
  have hfst : (addAllergy l n1).1 =
      l ++ [⟨jsToLower (jsTrim n1.name), n1.severity, jsTrim n1.notes⟩] := by
    simp [addAllergy, h1, h2]
  refine ⟨hfst, ?_⟩
  rw [hfst]
  simp [addAllergy, List.any_append, h3]

theorem C5_addAllergy_amended_witness :
    (addAllergy [] ⟨"Milk ", "mild", ""⟩).1 =
      [⟨jsToLower (jsTrim "Milk "), "mild", jsTrim ""⟩] ∧
    (addAllergy (addAllergy [] ⟨"Milk ", "mild", ""⟩).1 ⟨"MILK", "severe", "x"⟩).1 =
      (addAllergy [] ⟨"Milk ", "mild", ""⟩).1 :=
  C5_addAllergy_amended [] ⟨"Milk ", "mild", ""⟩ ⟨"MILK", "severe", "x"⟩
    (by decide) rfl (by decide)

end FoodGuard
